import Mathlib

/-!
Shallow embedding of the health-risk prediction core
(`src/model/predict.py` and `src/model/train.py`).

Numeric vital-sign values are modelled as rationals (`ℚ`); Python dicts used
as ordered tier tables are modelled as lists in declaration order, and the
`for`-loop overwrite semantics ("last matching tier wins") becomes a left fold.
-/

namespace HealthRisk

/-- `HealthRiskAnalyzer.bp_thresholds`: ordered blood-pressure tiers, each with
a (systolic range, diastolic range) pair. -/
def bp_thresholds : List (String × (ℚ × ℚ) × (ℚ × ℚ)) :=
  [("normal", ((90, 120), (60, 80))),
   ("elevated", ((120, 130), (80, 85))),
   ("high", ((130, 180), (85, 120))),
   ("crisis", ((180, 300), (120, 200)))]

/-- `HealthRiskAnalyzer.bs_thresholds`: ordered blood-sugar tiers (mmol/L). -/
def bs_thresholds : List (String × ℚ × ℚ) :=
  [("normal", (39/10, 7)),
   ("pre_diabetic", (7, 11)),
   ("diabetic", (11, 25))]

/-- `HealthRiskAnalyzer.heart_rate_thresholds`: ordered heart-rate tiers (bpm). -/
def heart_rate_thresholds : List (String × ℚ × ℚ) :=
  [("low", (0, 60)),
   ("normal", (60, 100)),
   ("elevated", (100, 150)),
   ("high", (150, 300))]

/-- `HealthRiskAnalyzer.temp_thresholds`: ordered body-temperature tiers (°C). -/
def temp_thresholds : List (String × ℚ × ℚ) :=
  [("hypothermia", (0, 35)),
   ("normal", (35, 75/2)),
   ("fever", (75/2, 77/2)),
   ("high_fever", (77/2, 45))]

/-- The single-range classification loop of `analyze_vitals`: start from the
default status `"normal"` and overwrite it with every tier whose inclusive
range contains the value, in table order (last match wins). -/
def singleStatus (ths : List (String × ℚ × ℚ)) (v : ℚ) : String :=
  ths.foldl (fun status e => if e.2.1 ≤ v ∧ v ≤ e.2.2 then e.1 else status) "normal"

/-- The blood-pressure classification loop of `analyze_vitals`: a tier matches
only when the systolic and diastolic values lie in its paired ranges
simultaneously; the last matching tier in table order wins. -/
def bpStatus (systolic diastolic : ℚ) : String :=
  bp_thresholds.foldl
    (fun status e =>
      if e.2.1.1 ≤ systolic ∧ systolic ≤ e.2.1.2 ∧
          e.2.2.1 ≤ diastolic ∧ diastolic ≤ e.2.2.2 then e.1 else status)
    "normal"

/-- Inference input: a mapping with up to six vital-sign keys; a missing key
behaves like Python's `data.get(key, 0)`. -/
structure Vitals where
  Age : Option ℚ
  SystolicBP : Option ℚ
  DiastolicBP : Option ℚ
  BS : Option ℚ
  BodyTemp : Option ℚ
  HeartRate : Option ℚ
deriving DecidableEq

/-- One entry of the analysis bundle for blood pressure: the tier name, the
formatted "systolic/diastolic" value and the explanatory text. -/
structure BPInfo where
  status : String
  value : String
  details : String
deriving DecidableEq

/-- One entry of the analysis bundle for a single-valued vital sign. -/
structure NumInfo where
  status : String
  value : ℚ
  details : String
deriving DecidableEq

/-- The value returned by `analyze_vitals`: one entry per vital-sign category. -/
structure Analysis where
  blood_pressure : BPInfo
  blood_sugar : NumInfo
  heart_rate : NumInfo
  temperature : NumInfo
deriving DecidableEq

/-- `get_bp_details`: dictionary lookup with a fallback text. -/
def get_bp_details (status : String) : String :=
  if status = "normal" then "Blood pressure is within healthy range."
  else if status = "elevated" then "Blood pressure is slightly elevated, indicating pre-hypertension."
  else if status = "high" then "Blood pressure is high, indicating hypertension."
  else if status = "crisis" then "Blood pressure is at crisis levels, requiring immediate medical attention."
  else "Blood pressure status unclear."

/-- `get_bs_details`. -/
def get_bs_details (status : String) : String :=
  if status = "normal" then "Blood sugar levels are within normal range."
  else if status = "pre_diabetic" then "Blood sugar levels indicate pre-diabetes."
  else if status = "diabetic" then "Blood sugar levels indicate diabetic range."
  else "Blood sugar status unclear."

/-- `get_hr_details`. -/
def get_hr_details (status : String) : String :=
  if status = "low" then "Heart rate is lower than normal (bradycardia)."
  else if status = "normal" then "Heart rate is within normal range."
  else if status = "elevated" then "Heart rate is elevated (mild tachycardia)."
  else if status = "high" then "Heart rate is significantly elevated (tachycardia)."
  else "Heart rate status unclear."

/-- `get_temp_details`. -/
def get_temp_details (status : String) : String :=
  if status = "hypothermia" then "Body temperature is dangerously low."
  else if status = "normal" then "Body temperature is within normal range."
  else if status = "fever" then "Presence of fever indicates possible infection."
  else if status = "high_fever" then "High fever requires immediate medical attention."
  else "Temperature status unclear."

/-- `analyze_vitals`: classify each vital sign against its threshold table and
attach the raw value and the tier's explanation. -/
def analyze_vitals (data : Vitals) : Analysis :=
  let systolic := data.SystolicBP.getD 0
  let diastolic := data.DiastolicBP.getD 0
  let bp_status := bpStatus systolic diastolic
  let bs := data.BS.getD 0
  let bs_status := singleStatus bs_thresholds bs
  let hr := data.HeartRate.getD 0
  let hr_status := singleStatus heart_rate_thresholds hr
  let temp := data.BodyTemp.getD 0
  let temp_status := singleStatus temp_thresholds temp
  { blood_pressure :=
      ⟨bp_status, toString systolic ++ "/" ++ toString diastolic, get_bp_details bp_status⟩
    blood_sugar := ⟨bs_status, bs, get_bs_details bs_status⟩
    heart_rate := ⟨hr_status, hr, get_hr_details hr_status⟩
    temperature := ⟨temp_status, temp, get_temp_details temp_status⟩ }

/-- The four recommendation lists returned by `get_recommendations`. -/
structure Recs where
  immediate_actions : List String
  lifestyle_changes : List String
  monitoring_suggestions : List String
  follow_up_care : List String
deriving DecidableEq

def bp_emergency_actions : List String :=
  ["Seek emergency medical attention for high blood pressure",
   "Take prescribed blood pressure medication if available",
   "Sit quietly and try to remain calm"]

def bs_emergency_actions : List String :=
  ["Check ketone levels if you have diabetes",
   "Take insulin or diabetes medication as prescribed",
   "Contact your healthcare provider immediately"]

def fever_emergency_actions : List String :=
  ["Take appropriate fever-reducing medication",
   "Stay hydrated and monitor temperature regularly",
   "Seek immediate medical care if temperature continues to rise"]

def bp_lifestyle_changes : List String :=
  ["Reduce sodium intake in your diet",
   "Engage in regular physical activity",
   "Practice stress management techniques",
   "Maintain a healthy weight"]

def bs_lifestyle_changes : List String :=
  ["Follow a balanced, low-glycemic diet",
   "Exercise regularly for blood sugar control",
   "Monitor carbohydrate intake",
   "Get adequate sleep"]

def monitoring_checklist : List String :=
  ["Monitor blood pressure daily",
   "Keep a log of blood sugar readings",
   "Track heart rate during rest and activity",
   "Record any new or changing symptoms"]

def follow_up_high : List String :=
  ["Schedule an immediate appointment with your healthcare provider",
   "Bring your vital signs log to your appointment",
   "Discuss medication adjustments if needed"]

def follow_up_mid : List String :=
  ["Schedule a follow-up appointment within the next week",
   "Prepare questions about lifestyle modifications",
   "Consider a medication review"]

def follow_up_routine : List String :=
  ["Continue regular check-ups",
   "Maintain preventive health screenings",
   "Update emergency contact information"]

/-- `get_recommendations`: starts from four empty lists and extends them, in
source order, according to the risk level and the analysis statuses. The raw
vitals argument is accepted (as in the source) but never read. -/
def get_recommendations (data : Vitals) (risk_level : String) (analysis : Analysis) : Recs :=
  let recs : Recs := ⟨[], [], [], []⟩
  let recs :=
    if risk_level = "high" then
      let recs :=
        if analysis.blood_pressure.status = "high" ∨ analysis.blood_pressure.status = "crisis" then
          { recs with immediate_actions := recs.immediate_actions ++ bp_emergency_actions }
        else recs
      let recs :=
        if analysis.blood_sugar.status = "diabetic" then
          { recs with immediate_actions := recs.immediate_actions ++ bs_emergency_actions }
        else recs
      let recs :=
        if analysis.temperature.status = "high_fever" then
          { recs with immediate_actions := recs.immediate_actions ++ fever_emergency_actions }
        else recs
      recs
    else recs
  let recs :=
    if analysis.blood_pressure.status = "elevated" ∨ analysis.blood_pressure.status = "high" then
      { recs with lifestyle_changes := recs.lifestyle_changes ++ bp_lifestyle_changes }
    else recs
  let recs :=
    if analysis.blood_sugar.status = "pre_diabetic" ∨ analysis.blood_sugar.status = "diabetic" then
      { recs with lifestyle_changes := recs.lifestyle_changes ++ bs_lifestyle_changes }
    else recs
  let recs :=
    if risk_level = "high" ∨ risk_level = "mid" then
      { recs with monitoring_suggestions := recs.monitoring_suggestions ++ monitoring_checklist }
    else recs
  let recs :=
    if risk_level = "high" then
      { recs with follow_up_care := recs.follow_up_care ++ follow_up_high }
    else if risk_level = "mid" then
      { recs with follow_up_care := recs.follow_up_care ++ follow_up_mid }
    else
      { recs with follow_up_care := recs.follow_up_care ++ follow_up_routine }
  recs

/-- Python's `max` over a sequence: an error (`none`) on an empty sequence,
otherwise the greatest element. -/
def pyMax : List ℚ → Option ℚ
  | [] => none
  | x :: xs => some (xs.foldl max x)

/-- The artifacts loaded by `load_models`, as opaque deterministic functions:
the fitted scaler's `transform` and the fitted model's `predict` and
`predict_proba` (restricted to the single row `predict_risk` passes them). -/
structure Artifacts where
  transform : List ℚ → List ℚ
  predict : List ℚ → String
  predict_proba : List ℚ → List ℚ

/-- The feature-name list of `predict_risk` (src/model/predict.py, line 47). -/
def features : List String :=
  ["Age", "SystolicBP", "DiastolicBP", "BS", "BodyTemp", "HeartRate"]

/-- `data.get(f, 0)` for a feature name `f`. -/
def vget (data : Vitals) : String → ℚ
  | "Age" => data.Age.getD 0
  | "SystolicBP" => data.SystolicBP.getD 0
  | "DiastolicBP" => data.DiastolicBP.getD 0
  | "BS" => data.BS.getD 0
  | "BodyTemp" => data.BodyTemp.getD 0
  | "HeartRate" => data.HeartRate.getD 0
  | _ => 0

/-- The single-row feature matrix `[[data.get(f, 0) for f in features]]`. -/
def input_data (data : Vitals) : List ℚ :=
  features.map (vget data)

/-- The dictionary returned by `predict_risk`. -/
structure RiskResult where
  risk_level : String
  confidence : ℚ
  vital_signs_analysis : Analysis
  recommendations : Recs
  timestamp : String
deriving DecidableEq

/-- `predict_risk`, parameterised by the loaded artifacts and by the clock
value `now` (the source calls `datetime.now()` here); `none` models the error
Python's `max` raises when `predict_proba` returns an empty row. -/
def predict_risk (arts : Artifacts) (now : String) (data : Vitals) : Option RiskResult :=
  let input_scaled := arts.transform (input_data data)
  let risk_level := arts.predict input_scaled
  match pyMax (arts.predict_proba input_scaled) with
  | none => none
  | some confidence =>
    let analysis := analyze_vitals data
    some { risk_level := risk_level
           confidence := confidence
           vital_signs_analysis := analysis
           recommendations := get_recommendations data risk_level analysis
           timestamp := now }

/-- Everything in a `RiskResult` except the timestamp. -/
def riskFields (r : RiskResult) : String × ℚ × Analysis × Recs :=
  (r.risk_level, r.confidence, r.vital_signs_analysis, r.recommendations)

end HealthRisk

namespace Train

/-- The feature-name list of `train_model` (src/model/train.py, line 15). -/
def features : List String :=
  ["Age", "SystolicBP", "DiastolicBP", "BS", "BodyTemp", "HeartRate"]

/-- Python's `str.lower()` on the label text (ASCII case folding). -/
def pyLower (s : String) : String :=
  ⟨s.data.map Char.toLower⟩

/-- The character-level core of `str.replace(' risk', '')`: delete every
non-overlapping occurrence of `" risk"`, scanning left to right. -/
def removeRiskAux : List Char → List Char
  | ' ' :: 'r' :: 'i' :: 's' :: 'k' :: rest => removeRiskAux rest
  | c :: cs => c :: removeRiskAux cs
  | [] => []

/-- `df['RiskLevel'].str.lower().str.replace(' risk', '')` applied to one
label (src/model/train.py, line 12). -/
def normalizeLabel (s : String) : String :=
  ⟨removeRiskAux (pyLower s).data⟩

/-- `true` iff `" risk"` occurs as a substring. -/
def occursRisk : List Char → Bool
  | ' ' :: 'r' :: 'i' :: 's' :: 'k' :: _ => true
  | _ :: cs => occursRisk cs
  | [] => false

/-- The normalization as the spec words it, for the refinement comparison:
lower-case, then strip a trailing " risk" suffix if one is present, leaving
the rest of the string unchanged. -/
def specNormalizeLabel (s : String) : String :=
  let t := (pyLower s).data
  if [' ', 'r', 'i', 's', 'k'].isSuffixOf t then ⟨t.take (t.length - 5)⟩ else ⟨t⟩

end Train

/-! ## Helper lemmas -/

/-- The classification fold leaves its accumulator unchanged when no tier's
range contains the value. -/
lemma singleFold_const (v : ℚ) (ths : List (String × ℚ × ℚ)) (init : String)
    (h : ∀ e ∈ ths, ¬(e.2.1 ≤ v ∧ v ≤ e.2.2)) :
    ths.foldl (fun status e => if e.2.1 ≤ v ∧ v ≤ e.2.2 then e.1 else status) init = init := by
  induction ths generalizing init with
  | nil => rfl
  | cons e t ih =>
    simp only [List.foldl]
    rw [if_neg (h e (List.mem_cons_self e t))]
    exact ih init (fun x hx => h x (List.mem_cons_of_mem e hx))

/-- `singleStatus` falls back to `"normal"` when no tier matches. -/
lemma singleStatus_no_match (ths : List (String × ℚ × ℚ)) (v : ℚ)
    (h : ∀ e ∈ ths, ¬(e.2.1 ≤ v ∧ v ≤ e.2.2)) :
    HealthRisk.singleStatus ths v = "normal" :=
  singleFold_const v ths "normal" h

/-- The blood-pressure fold leaves its accumulator unchanged when no tier's
paired ranges contain both values. -/
lemma bpFold_const (s d : ℚ) (ths : List (String × (ℚ × ℚ) × (ℚ × ℚ))) (init : String)
    (h : ∀ e ∈ ths,
      ¬(e.2.1.1 ≤ s ∧ s ≤ e.2.1.2 ∧ e.2.2.1 ≤ d ∧ d ≤ e.2.2.2)) :
    ths.foldl
      (fun status e =>
        if e.2.1.1 ≤ s ∧ s ≤ e.2.1.2 ∧ e.2.2.1 ≤ d ∧ d ≤ e.2.2.2 then e.1 else status)
      init = init := by
  induction ths generalizing init with
  | nil => rfl
  | cons e t ih =>
    simp only [List.foldl]
    rw [if_neg (h e (List.mem_cons_self e t))]
    exact ih init (fun x hx => h x (List.mem_cons_of_mem e hx))

/-- `bpStatus` falls back to `"normal"` when no tier matches the pair. -/
lemma bpStatus_no_match (s d : ℚ)
    (h : ∀ e ∈ HealthRisk.bp_thresholds,
      ¬(e.2.1.1 ≤ s ∧ s ≤ e.2.1.2 ∧ e.2.2.1 ≤ d ∧ d ≤ e.2.2.2)) :
    HealthRisk.bpStatus s d = "normal" :=
  bpFold_const s d HealthRisk.bp_thresholds "normal" h

/-- Deleting every occurrence of `" risk"` from a string that contains none
leaves it unchanged. -/
lemma removeRiskAux_no_occ (t : List Char) (h : Train.occursRisk t = false) :
    Train.removeRiskAux t = t := by
  induction t using Train.removeRiskAux.induct with
  | case1 rest ih =>
    simp [Train.occursRisk] at h
  | case2 c cs hne ih =>
    rw [Train.occursRisk.eq_def] at h
    rw [Train.removeRiskAux.eq_def]
    split at h
    · simp at h
    · rename_i head tail hcond heq
      injection heq with e1 e2
      subst e1
      subst e2
      rw [ih h]
    · rename_i heq
      simp at heq
  | case3 => rfl

/-! ## Claims -/

/-- C1: for systolic 120 and diastolic 80 the blood-pressure branch of
`analyze_vitals` assigns the tier "elevated": both values lie in the "normal"
and the "elevated" paired ranges, and "elevated" is declared later, so the
last-match-wins fold keeps it. -/
theorem c1_bp_boundary_elevated :
    (HealthRisk.analyze_vitals
        ⟨none, some 120, some 80, none, none, none⟩).blood_pressure.status = "elevated" ∧
    HealthRisk.bpStatus 120 80 = "elevated" := by
  decide

/-- C2 counterexample: it is not true that every systolic in [90, 120] with
diastolic in [60, 80] is classified "normal"; at the shared boundary
(120, 80) the classifier returns "elevated". -/
theorem c2_counterexample :
    ¬(∀ s d : ℚ, 90 ≤ s → s ≤ 120 → 60 ≤ d → d ≤ 80 →
        HealthRisk.bpStatus s d = "normal") := by
  intro h
  have h120 := h 120 80 (by norm_num) (by norm_num) (by norm_num) (by norm_num)
  have helev : HealthRisk.bpStatus 120 80 = "elevated" := by decide
  rw [helev] at h120
  exact absurd h120 (by decide)

/-- C2 (amended): for systolic in [90, 120] and diastolic in [60, 80] the
blood-pressure classification returns "normal", except at the single corner
point systolic = 120 and diastolic = 80, where it returns "elevated". -/
theorem c2_bp_normal_range (s d : ℚ) (h1 : 90 ≤ s) (h2 : s ≤ 120)
    (h3 : 60 ≤ d) (h4 : d ≤ 80) (h5 : ¬(s = 120 ∧ d = 80)) :
    HealthRisk.bpStatus s d = "normal" := by
  simp only [HealthRisk.bpStatus, HealthRisk.bp_thresholds, List.foldl]
  split_ifs with hcrisis hhigh helev
  · obtain ⟨ha, -⟩ := hcrisis
    exfalso; linarith
  · obtain ⟨ha, -⟩ := hhigh
    exfalso; linarith
  · obtain ⟨ha, hb, hc, hd⟩ := helev
    exact absurd ⟨le_antisymm h2 ha, le_antisymm h4 hc⟩ h5
  · rfl
  · rfl

/-- C2 witness: the interior point (100, 70) is classified "normal". -/
theorem c2_bp_normal_range_witness : HealthRisk.bpStatus 100 70 = "normal" :=
  c2_bp_normal_range 100 70 (by norm_num) (by norm_num) (by norm_num) (by norm_num)
    (by norm_num)

/-- C3: `immediate_actions` is the concatenation, gated on risk level "high",
of the BP-emergency items (iff the blood-pressure tier is "high" or "crisis"),
the glycemic-emergency items (iff the blood-sugar tier is "diabetic") and the
fever-emergency items (iff the temperature tier is "high_fever"); for any
other risk level it is empty. -/
theorem c3_immediate_actions (d : HealthRisk.Vitals) (r : String) (a : HealthRisk.Analysis) :
    (HealthRisk.get_recommendations d r a).immediate_actions =
      if r = "high" then
        ((if a.blood_pressure.status = "high" ∨ a.blood_pressure.status = "crisis" then
            HealthRisk.bp_emergency_actions else []) ++
          (if a.blood_sugar.status = "diabetic" then HealthRisk.bs_emergency_actions else [])) ++
          (if a.temperature.status = "high_fever" then HealthRisk.fever_emergency_actions else [])
      else [] := by
  simp only [HealthRisk.get_recommendations, apply_ite HealthRisk.Recs.immediate_actions]
  simp
  split_ifs <;> simp

/-- C4: `follow_up_care` is exactly one of three fixed three-item lists,
selected solely by the risk level ("high" → urgent, "mid" → one-week,
anything else → routine), and is never empty. -/
theorem c4_follow_up_care (d : HealthRisk.Vitals) (r : String) (a : HealthRisk.Analysis) :
    ((HealthRisk.get_recommendations d r a).follow_up_care =
      if r = "high" then HealthRisk.follow_up_high
      else if r = "mid" then HealthRisk.follow_up_mid
      else HealthRisk.follow_up_routine) ∧
    (HealthRisk.get_recommendations d r a).follow_up_care ≠ [] := by
  have heq : (HealthRisk.get_recommendations d r a).follow_up_care =
      if r = "high" then HealthRisk.follow_up_high
      else if r = "mid" then HealthRisk.follow_up_mid
      else HealthRisk.follow_up_routine := by
    simp only [HealthRisk.get_recommendations, apply_ite HealthRisk.Recs.follow_up_care]
    simp
  refine ⟨heq, ?_⟩
  rw [heq]
  split_ifs <;>
    simp [HealthRisk.follow_up_high, HealthRisk.follow_up_mid, HealthRisk.follow_up_routine]

/-- C5: `monitoring_suggestions` is the fixed four-item checklist exactly when
the risk-level token is "high" or "mid", and empty otherwise — in particular
for the token "medium". -/
theorem c5_monitoring_suggestions (d : HealthRisk.Vitals) (r : String) (a : HealthRisk.Analysis) :
    ((HealthRisk.get_recommendations d r a).monitoring_suggestions =
      if r = "high" ∨ r = "mid" then HealthRisk.monitoring_checklist else []) ∧
    (HealthRisk.get_recommendations d "medium" a).monitoring_suggestions = [] := by
  constructor
  · simp only [HealthRisk.get_recommendations, apply_ite HealthRisk.Recs.monitoring_suggestions]
    simp
  · simp only [HealthRisk.get_recommendations, apply_ite HealthRisk.Recs.monitoring_suggestions]
    simp

/-- C6: when a single-valued vital sign lies outside every declared tier range
and the blood-pressure pair matches no tier's paired ranges, every status in
the analysis is the default "normal" (and the classifier is total: no error
path exists). -/
theorem c6_default_normal (bs hr tp s d : ℚ)
    (hbs : ∀ e ∈ HealthRisk.bs_thresholds, ¬(e.2.1 ≤ bs ∧ bs ≤ e.2.2))
    (hhr : ∀ e ∈ HealthRisk.heart_rate_thresholds, ¬(e.2.1 ≤ hr ∧ hr ≤ e.2.2))
    (htp : ∀ e ∈ HealthRisk.temp_thresholds, ¬(e.2.1 ≤ tp ∧ tp ≤ e.2.2))
    (hbp : ∀ e ∈ HealthRisk.bp_thresholds,
      ¬(e.2.1.1 ≤ s ∧ s ≤ e.2.1.2 ∧ e.2.2.1 ≤ d ∧ d ≤ e.2.2.2)) :
    (HealthRisk.analyze_vitals ⟨none, some s, some d, some bs, some tp, some hr⟩).blood_sugar.status = "normal" ∧
    (HealthRisk.analyze_vitals ⟨none, some s, some d, some bs, some tp, some hr⟩).heart_rate.status = "normal" ∧
    (HealthRisk.analyze_vitals ⟨none, some s, some d, some bs, some tp, some hr⟩).temperature.status = "normal" ∧
    (HealthRisk.analyze_vitals ⟨none, some s, some d, some bs, some tp, some hr⟩).blood_pressure.status = "normal" := by
  simp only [HealthRisk.analyze_vitals, Option.getD_some]
  exact ⟨singleStatus_no_match _ _ hbs, singleStatus_no_match _ _ hhr,
    singleStatus_no_match _ _ htp, bpStatus_no_match _ _ hbp⟩

/-- C6 witness: blood sugar 0, heart rate 301, temperature 46 and blood
pressure 50/50 all fall outside every declared range and default to
"normal". -/
theorem c6_default_normal_witness :
    (HealthRisk.analyze_vitals ⟨none, some 50, some 50, some 0, some 46, some 301⟩).blood_sugar.status = "normal" ∧
    (HealthRisk.analyze_vitals ⟨none, some 50, some 50, some 0, some 46, some 301⟩).heart_rate.status = "normal" ∧
    (HealthRisk.analyze_vitals ⟨none, some 50, some 50, some 0, some 46, some 301⟩).temperature.status = "normal" ∧
    (HealthRisk.analyze_vitals ⟨none, some 50, some 50, some 0, some 46, some 301⟩).blood_pressure.status = "normal" :=
  c6_default_normal 0 301 46 50 50
    (by norm_num [HealthRisk.bs_thresholds])
    (by norm_num [HealthRisk.heart_rate_thresholds])
    (by norm_num [HealthRisk.temp_thresholds])
    (by norm_num [HealthRisk.bp_thresholds])

/-- C7: `predict_risk` with identical vitals and identical loaded artifacts is
deterministic in everything except the timestamp: the risk level, confidence,
vital-signs analysis and recommendations coincide across two calls made at
different times. -/
theorem c7_assess_deterministic (arts : HealthRisk.Artifacts) (t1 t2 : String)
    (data : HealthRisk.Vitals) :
    (HealthRisk.predict_risk arts t1 data).map HealthRisk.riskFields =
      (HealthRisk.predict_risk arts t2 data).map HealthRisk.riskFields := by
  simp only [HealthRisk.predict_risk]
  rcases HealthRisk.pyMax
      (arts.predict_proba (arts.transform (HealthRisk.input_data data))) with _ | c <;>
    rfl

/-- C8 counterexample: on the label "Take a risk today" the code's
normalization deletes the interior " risk" (yielding "take a today"), while
the claimed lower-case-and-strip-trailing-suffix normalization leaves it as
"take a risk today"; the two disagree. -/
theorem c8_counterexample :
    Train.normalizeLabel "Take a risk today" = "take a today" ∧
    Train.specNormalizeLabel "Take a risk today" = "take a risk today" ∧
    Train.normalizeLabel "Take a risk today" ≠
      Train.specNormalizeLabel "Take a risk today" := by
  refine ⟨by decide, by decide, ?_⟩
  decide

/-- C8 (amended): the normalization lower-cases the label and deletes every
occurrence of the substring " risk", not only a trailing suffix; a label whose
lower-cased form does not contain " risk" at all is only lower-cased, and on
suffix-only labels such as "High Risk" it behaves as the claimed suffix strip
("High Risk" → "high", "mid risk" → "mid", "Low Risk" → "low"). -/
theorem c8_label_normalization (s : String)
    (h : Train.occursRisk (Train.pyLower s).data = false) :
    Train.normalizeLabel s = Train.pyLower s ∧
    Train.normalizeLabel "High Risk" = "high" ∧
    Train.normalizeLabel "mid risk" = "mid" ∧
    Train.normalizeLabel "Low Risk" = "low" := by
  refine ⟨?_, by decide, by decide, by decide⟩
  unfold Train.normalizeLabel
  rw [removeRiskAux_no_occ _ h]

/-- C8 witness: a label with no " risk" substring is only lower-cased. -/
theorem c8_label_normalization_witness :
    Train.normalizeLabel "Normal" = Train.pyLower "Normal" :=
  (c8_label_normalization "Normal" (by decide)).1

/-- C9: the six-feature order (Age, SystolicBP, DiastolicBP, BS, BodyTemp,
HeartRate) is the same list at training time and at inference time. -/
theorem c9_feature_order :
    Train.features = HealthRisk.features ∧
    HealthRisk.features = ["Age", "SystolicBP", "DiastolicBP", "BS", "BodyTemp", "HeartRate"] :=
  ⟨rfl, rfl⟩

/-- C10: `get_recommendations` never reads the raw vitals: two calls with the
same risk level and analyses that agree on the four tier statuses return the
same recommendation bundle, whatever the two vitals maps are. -/
theorem c10_vitals_independent (d1 d2 : HealthRisk.Vitals) (r : String)
    (a1 a2 : HealthRisk.Analysis)
    (hbp : a1.blood_pressure.status = a2.blood_pressure.status)
    (hbs : a1.blood_sugar.status = a2.blood_sugar.status)
    (hhr : a1.heart_rate.status = a2.heart_rate.status)
    (htp : a1.temperature.status = a2.temperature.status) :
    HealthRisk.get_recommendations d1 r a1 = HealthRisk.get_recommendations d2 r a2 := by
  simp only [HealthRisk.get_recommendations, hbp, hbs, htp]

/-- C10 witness: two different vitals maps with one shared analysis yield the
same bundle. -/
theorem c10_vitals_independent_witness :
    HealthRisk.get_recommendations ⟨none, none, none, none, none, none⟩ "low"
        ⟨⟨"normal", "0/0", ""⟩, ⟨"normal", 0, ""⟩, ⟨"normal", 0, ""⟩, ⟨"normal", 0, ""⟩⟩ =
      HealthRisk.get_recommendations ⟨some 1, some 2, some 3, some 4, some 5, some 6⟩ "low"
        ⟨⟨"normal", "0/0", ""⟩, ⟨"normal", 0, ""⟩, ⟨"normal", 0, ""⟩, ⟨"normal", 0, ""⟩⟩ :=
  c10_vitals_independent ⟨none, none, none, none, none, none⟩
    ⟨some 1, some 2, some 3, some 4, some 5, some 6⟩ "low"
    ⟨⟨"normal", "0/0", ""⟩, ⟨"normal", 0, ""⟩, ⟨"normal", 0, ""⟩, ⟨"normal", 0, ""⟩⟩
    ⟨⟨"normal", "0/0", ""⟩, ⟨"normal", 0, ""⟩, ⟨"normal", 0, ""⟩, ⟨"normal", 0, ""⟩⟩
    rfl rfl rfl rfl
